import Mathlib

/-!
Verification development for the IdentiFind browser face-capture application.

The repository implements an alignment-gate / capture controller: per-frame
face-detection results are evaluated against a fixed target region, a
stability timer gates an automatic capture, a re-entrancy flag guards the
capture action, and a post-capture reset timeout acts as a cooldown.

The source contains several near-duplicate variants of the same component:
 - an interval-based Camera component (stability-check interval plus a
   separate countdown interval, `startStabilityCheck`), embedded below in
   namespace CameraA;
 - a ref-based Camera component (stability timestamp in a mutable ref, a
   hard-coded 3000 ms threshold, `performSingleCapture`), embedded below in
   namespace CameraB;
 - a face-api.js FaceDetectionManager (`captureTargetRegion`, offscreen
   detection canvas) and a MediaPipe FaceDetectionManager
   (`isInTargetRegion`, `captureImage` from the annotated display canvas),
   embedded in namespaces FaceApi and MediaPipe.

Numbers from the source are embedded over ℚ (JavaScript floats carry exact
decimal literals here); wall-clock milliseconds are ℕ.  Timer callbacks are
modelled as explicit events; a validity predicate on event traces states
that a timeout or interval callback only fires when it is actually pending.
-/

/- Batteries seals the `Rat` arithmetic operations, which blocks
evaluation of concrete rational arithmetic in `decide`; the definitions
are ordinary computable functions, so unsealing them lets concrete runs
evaluate. -/
unseal Rat.add Rat.mul Rat.sub Rat.inv

/-- Pixel-coordinate rectangle, as used for target regions and scaled
regions (`{x, y, width, height}` object literals in the source). -/
structure Rect where
  x : ℚ
  y : ℚ
  width : ℚ
  height : ℚ
deriving DecidableEq

/-- Face bounding box in canvas coordinates (`bbox` of a detection). -/
structure BBox where
  x : ℚ
  y : ℚ
  width : ℚ
  height : ℚ
deriving DecidableEq

/-- Pose angles in degrees (`faceAngle` of a detection). -/
structure FaceAngle where
  yaw : ℚ
  pitch : ℚ
  roll : ℚ
deriving DecidableEq

/-- One face-detector output entry, from `src/types/index.ts`
(`FaceDetectionResult`). -/
structure FaceDetectionResult where
  confidence : ℚ
  isFacingCamera : Bool
  faceAngle : FaceAngle
  frontalConfidence : ℚ
  bbox : BBox
deriving DecidableEq

/-- Tunable thresholds, from `src/types/index.ts` (`FaceDetectionConfig`).
Durations are milliseconds. -/
structure FaceDetectionConfig where
  minDetectionConfidence : ℚ
  minFrontalConfidence : ℚ
  maxYawAngle : ℚ
  maxPitchAngle : ℚ
  stabilityThreshold : ℕ
  captureDelay : ℕ
deriving DecidableEq

namespace FaceApi

/-- `createTargetRegion` from the face-api `src/lib/face-detection.ts`:
ignores its arguments and always derives the region from a 640×480 base. -/
def createTargetRegion (canvasWidth canvasHeight : ℚ) : Rect :=
  let baseWidth : ℚ := 640
  let baseHeight : ℚ := 480
  let minDimension := min baseWidth baseHeight
  let regionSize := minDimension * (6 / 10)
  let regionWidth := regionSize
  let regionHeight := regionSize * (12 / 10)
  { x := (baseWidth - regionWidth) / 2
    y := (baseHeight - regionHeight) / 2
    width := regionWidth
    height := regionHeight }

end FaceApi

/-- REQUIREMENT 1 of the validity filter in `Camera.tsx`: the entire
bounding box lies within the target region (all four edges inside). -/
def faceFullyInRegion (targetRegion : Rect) (bbox : BBox) : Bool :=
  decide (targetRegion.x ≤ bbox.x) &&
  decide (bbox.x + bbox.width ≤ targetRegion.x + targetRegion.width) &&
  decide (targetRegion.y ≤ bbox.y) &&
  decide (bbox.y + bbox.height ≤ targetRegion.y + targetRegion.height)

/-- The predicate of the `validFacesInRegion` filter in `Camera.tsx`
(ref-based variant, direct 640×480 coordinates; in the interval-based
variant the canvas is 640×480 so the scale factors are 1 and the predicate
is the same): all five requirements conjoined. -/
def validFace (config : FaceDetectionConfig) (targetRegion : Rect)
    (detection : FaceDetectionResult) : Bool :=
  let bbox := detection.bbox
  let isFacing := detection.isFacingCamera
  let hasGoodDetection := decide (config.minDetectionConfidence ≤ detection.confidence)
  let faceArea := bbox.width * bbox.height
  let regionArea := targetRegion.width * targetRegion.height
  let isGoodSize :=
    decide ((8 : ℚ) / 100 ≤ faceArea / regionArea) &&
    decide (faceArea / regionArea ≤ (8 : ℚ) / 10)
  let isGoodAngle :=
    decide (|detection.faceAngle.yaw| ≤ config.maxYawAngle) &&
    decide (|detection.faceAngle.pitch| ≤ config.maxPitchAngle)
  faceFullyInRegion targetRegion bbox && isFacing && hasGoodDetection &&
    isGoodSize && isGoodAngle

/-- Spec-side restatement of §4.1 of the specification: the five validity
criteria, written from the spec's words, for comparison with the
source-derived `validFace`. -/
def meetsFiveCriteria (config : FaceDetectionConfig) (targetRegion : Rect)
    (d : FaceDetectionResult) : Prop :=
  (targetRegion.x ≤ d.bbox.x ∧
    d.bbox.x + d.bbox.width ≤ targetRegion.x + targetRegion.width ∧
    targetRegion.y ≤ d.bbox.y ∧
    d.bbox.y + d.bbox.height ≤ targetRegion.y + targetRegion.height) ∧
  d.isFacingCamera = true ∧
  config.minDetectionConfidence ≤ d.confidence ∧
  ((8 : ℚ) / 100 ≤ d.bbox.width * d.bbox.height / (targetRegion.width * targetRegion.height) ∧
    d.bbox.width * d.bbox.height / (targetRegion.width * targetRegion.height) ≤ (8 : ℚ) / 10) ∧
  (|d.faceAngle.yaw| ≤ config.maxYawAngle ∧ |d.faceAngle.pitch| ≤ config.maxPitchAngle)

namespace CameraB

/-- Session state of the ref-based Camera component: the stability
timestamp ref, the `isCapturing` flag, the pending `performSingleCapture`
timeout and the pending capture-state reset timeout (due times in ms), the
times at which capture was triggered (`captures`) and at which an image was
handed to `onImageCaptured` (`emitted`), manager availability and the
stopped flag. -/
structure GateState where
  faceStableTime : Option ℕ
  isCapturing : Bool
  pendingCapture : Option ℕ
  pendingReset : Option ℕ
  captures : List ℕ
  emitted : List ℕ
  managerReady : Bool
  stopped : Bool
deriving DecidableEq

/-- State at session start. -/
def initState : GateState :=
  { faceStableTime := none, isCapturing := false, pendingCapture := none
    pendingReset := none, captures := [], emitted := []
    managerReady := true, stopped := false }

/-- `handleFaceDetectionResults` of the ref-based Camera component:
blocks entirely while capturing; otherwise filters valid faces, starts or
continues the stability timer, triggers the capture (setting `isCapturing`
and scheduling `performSingleCapture` 100 ms later) once elapsed time
reaches the hard-coded 3000 ms, and resets the timer when alignment is
lost. -/
def handleFaceDetectionResults (cfg : FaceDetectionConfig) (targetRegion : Rect)
    (s : GateState) (now : ℕ) (results : List FaceDetectionResult) : GateState :=
  if s.isCapturing then s
  else
    let validFacesInRegion := results.filter (validFace cfg targetRegion)
    let faceInTargetRegion := 0 < validFacesInRegion.length
    if faceInTargetRegion then
      match s.faceStableTime with
      | none => { s with faceStableTime := some now }
      | some t0 =>
        if 3000 ≤ now - t0 then
          { s with isCapturing := true, faceStableTime := none
                   pendingCapture := some (now + 100)
                   captures := s.captures ++ [now] }
        else s
    else
      if s.faceStableTime.isSome then { s with faceStableTime := none } else s

/-- Events that can re-enter the controller between frames: the per-frame
detection callback, the scheduled `performSingleCapture`, the scheduled
capture-state reset (`setIsCapturing(false)` after 1000 ms), a manual
capture button press (`ok` abstracts whether the video checks and
`captureTargetRegion` succeed), and `stopCamera`. -/
inductive CameraEvent where
  | frame (now : ℕ) (results : List FaceDetectionResult)
  | captureRun (now : ℕ) (ok : Bool)
  | resetFire (now : ℕ)
  | manual (now : ℕ) (ok : Bool)
  | stop (now : ℕ)
deriving DecidableEq

/-- One event of the ref-based Camera component.  `captureRun` models
`performSingleCapture`: it emits the image when the manager is available
and the capture succeeded, and in its `finally` block always schedules the
reset timeout 1000 ms later.  `manual` models `captureImage`: rejected
while capturing or without a manager; otherwise it sets `isCapturing`,
clears the stability ref, captures synchronously and schedules the same
reset.  `stop` models `stopCamera`: manager torn down, ref cleared,
`isCapturing` cleared — pending timeouts are NOT cleared, as in the
source. -/
def stepEvent (cfg : FaceDetectionConfig) (targetRegion : Rect)
    (s : GateState) : CameraEvent → GateState
  | .frame now results => handleFaceDetectionResults cfg targetRegion s now results
  | .captureRun now ok =>
    { s with pendingCapture := none
             emitted := if s.managerReady && ok then s.emitted ++ [now] else s.emitted
             pendingReset := some (now + 1000) }
  | .resetFire _ => { s with pendingReset := none, isCapturing := false }
  | .manual now ok =>
    if s.isCapturing || !s.managerReady then s
    else
      { s with isCapturing := true, faceStableTime := none
               captures := s.captures ++ [now]
               emitted := if ok then s.emitted ++ [now] else s.emitted
               pendingReset := some (now + 1000) }
  | .stop _ =>
    { s with managerReady := false, faceStableTime := none
             isCapturing := false, stopped := true }

/-- Run a list of events. -/
def runEvents (cfg : FaceDetectionConfig) (targetRegion : Rect)
    (s : GateState) (events : List CameraEvent) : GateState :=
  events.foldl (stepEvent cfg targetRegion) s

/-- An event is enabled in a state when a timeout callback is actually
pending with that due time, and a frame callback only while the detection
manager is running (the manager's stop cancels the detection loop). -/
def eventEnabled (s : GateState) : CameraEvent → Bool
  | .frame _ _ => s.managerReady
  | .captureRun now _ => decide (s.pendingCapture = some now)
  | .resetFire now => decide (s.pendingReset = some now)
  | .manual _ _ => true
  | .stop _ => true

/-- A trace is valid when every event is enabled in the state it hits. -/
def eventsValid (cfg : FaceDetectionConfig) (targetRegion : Rect) :
    GateState → List CameraEvent → Bool
  | _, [] => true
  | s, e :: rest =>
    eventEnabled s e && eventsValid cfg targetRegion (stepEvent cfg targetRegion s e) rest

/-- Run a list of timestamped detection frames (frame events only). -/
def runFrames (cfg : FaceDetectionConfig) (targetRegion : Rect)
    (s : GateState) (frames : List (ℕ × List FaceDetectionResult)) : GateState :=
  runEvents cfg targetRegion s (frames.map (fun f => CameraEvent.frame f.1 f.2))

/-- The premise "alignment is lost before the stability threshold is
reached": along the frame list, every frame of a maximal aligned run lies
less than 3000 ms after the run's first frame (`cur` carries the start of
the currently open aligned run). -/
def episodesShort (cfg : FaceDetectionConfig) (targetRegion : Rect) :
    Option ℕ → List (ℕ × List FaceDetectionResult) → Bool
  | _, [] => true
  | cur, f :: rest =>
    if 0 < (f.2.filter (validFace cfg targetRegion)).length then
      match cur with
      | none => episodesShort cfg targetRegion (some f.1) rest
      | some t0 => decide (f.1 - t0 < 3000) && episodesShort cfg targetRegion (some t0) rest
    else episodesShort cfg targetRegion none rest

end CameraB

namespace CameraA

/-- Session state of the interval-based Camera component: `faceInRegion`,
the stability timestamp, the `isCapturing` flag, the displayed countdown
value, the next due times of the 100 ms stability-check interval and the
1000 ms countdown interval (an interval is alive iff its next due time is
set), the pending capture-state reset timeout, capture trigger times, and
the stopped flag. -/
structure GateStateA where
  faceInRegion : Bool
  faceStableTime : Option ℕ
  isCapturing : Bool
  countdown : Option ℤ
  stabilityNext : Option ℕ
  countdownNext : Option ℕ
  pendingResetA : Option ℕ
  capturesA : List ℕ
  stoppedA : Bool
deriving DecidableEq

/-- State at session start. -/
def initStateA : GateStateA :=
  { faceInRegion := false, faceStableTime := none, isCapturing := false
    countdown := none, stabilityNext := none, countdownNext := none
    pendingResetA := none, capturesA := [], stoppedA := false }

/-- Events of the interval-based Camera component: detection frames, ticks
of the stability-check interval, ticks of the countdown interval, the
post-capture reset timeout, and `stopCamera`. -/
inductive CameraEventA where
  | frameA (now : ℕ) (results : List FaceDetectionResult)
  | stabilityTick (now : ℕ)
  | countdownTick (now : ℕ)
  | resetFireA (now : ℕ)
  | stopA (now : ℕ)
deriving DecidableEq

/-- One event of the interval-based Camera component.

`frameA` embeds `handleFaceDetectionResults` (lines 155-249 of the
interval-based variant): early return while capturing; a first aligned
frame sets `faceInRegion` and the stability timestamp and starts the
stability interval (`startStabilityCheck` keeps an existing interval);
losing alignment resets timer, countdown and both intervals.

`stabilityTick` embeds the `setInterval` body of `startStabilityCheck`:
with no stability timestamp or while capturing it only reschedules itself;
once elapsed time reaches `stabilityThreshold` it clears itself and starts
the countdown interval with `ceil(captureDelay / 1000)`.

`countdownTick` embeds the countdown `setInterval` body: decrement; when
the count reaches 0 it clears itself and, unless already capturing, sets
`isCapturing`, captures, and in `finally` schedules the reset timeout
1000 ms later.

`resetFireA` embeds that reset timeout; `stopA` embeds `stopCamera`, which
clears both intervals and the UI state but neither `isCapturing` nor the
pending reset timeout. -/
def stepA (cfg : FaceDetectionConfig) (targetRegion : Rect)
    (s : GateStateA) : CameraEventA → GateStateA
  | .frameA now results =>
    if s.isCapturing then s
    else
      let validFacesInRegion := results.filter (validFace cfg targetRegion)
      if 0 < validFacesInRegion.length then
        if !s.faceInRegion then
          { s with faceInRegion := true, faceStableTime := some now
                   stabilityNext :=
                     if s.stabilityNext.isSome then s.stabilityNext else some (now + 100) }
        else s
      else
        if s.faceInRegion then
          { s with faceInRegion := false, faceStableTime := none
                   countdown := none, countdownNext := none, stabilityNext := none }
        else s
  | .stabilityTick now =>
    match s.faceStableTime with
    | none => { s with stabilityNext := some (now + 100) }
    | some t0 =>
      if s.isCapturing then { s with stabilityNext := some (now + 100) }
      else if cfg.stabilityThreshold ≤ now - t0 then
        { s with stabilityNext := none
                 countdown := some (((cfg.captureDelay + 999) / 1000 : ℕ) : ℤ)
                 countdownNext := some (now + 1000) }
      else { s with stabilityNext := some (now + 100) }
  | .countdownTick now =>
    let count := s.countdown.getD 0 - 1
    if count ≤ 0 then
      if s.isCapturing then { s with countdownNext := none, countdown := none }
      else
        { s with countdownNext := none, countdown := some 0
                 isCapturing := true, capturesA := s.capturesA ++ [now]
                 pendingResetA := some (now + 1000) }
    else { s with countdown := some count, countdownNext := some (now + 1000) }
  | .resetFireA _ =>
    { s with pendingResetA := none, isCapturing := false, faceInRegion := false
             faceStableTime := none, countdown := none }
  | .stopA _ =>
    { s with countdownNext := none, countdown := none, stabilityNext := none
             faceInRegion := false, faceStableTime := none, stoppedA := true }

/-- Run a list of events of the interval-based component. -/
def runA (cfg : FaceDetectionConfig) (targetRegion : Rect)
    (s : GateStateA) (events : List CameraEventA) : GateStateA :=
  events.foldl (stepA cfg targetRegion) s

/-- Event enabledness for the interval-based component: interval ticks and
the reset timeout fire only when due, and detection frames only arrive
while the session is running. -/
def eventEnabledA (s : GateStateA) : CameraEventA → Bool
  | .frameA _ _ => !s.stoppedA
  | .stabilityTick now => decide (s.stabilityNext = some now)
  | .countdownTick now => decide (s.countdownNext = some now)
  | .resetFireA now => decide (s.pendingResetA = some now)
  | .stopA _ => true

/-- Trace validity for the interval-based component. -/
def eventsValidA (cfg : FaceDetectionConfig) (targetRegion : Rect) :
    GateStateA → List CameraEventA → Bool
  | _, [] => true
  | s, e :: rest =>
    eventEnabledA s e && eventsValidA cfg targetRegion (stepA cfg targetRegion s e) rest

end CameraA

namespace MediaPipe

/-- `createTargetRegion` from the MediaPipe `src/lib/face-detection.ts`:
30% × 40% of the canvas, centred. -/
def createTargetRegion (canvasWidth canvasHeight : ℚ) : Rect :=
  let regionWidth := canvasWidth * (3 / 10)
  let regionHeight := canvasHeight * (4 / 10)
  let x := (canvasWidth - regionWidth) / 2
  let y := (canvasHeight - regionHeight) / 2
  { x := x, y := y, width := regionWidth, height := regionHeight }

/-- `FaceDetectionManager.isInTargetRegion` from the MediaPipe variant:
only the bounding-box CENTER must lie in the target region, plus the
detection-confidence threshold. -/
def isInTargetRegion (minDetectionConfidence : ℚ) (confidence : ℚ)
    (bbox : BBox) (targetRegion : Rect) : Bool :=
  let centerX := bbox.x + bbox.width / 2
  let centerY := bbox.y + bbox.height / 2
  decide (targetRegion.x ≤ centerX) &&
  decide (centerX ≤ targetRegion.x + targetRegion.width) &&
  decide (targetRegion.y ≤ centerY) &&
  decide (centerY ≤ targetRegion.y + targetRegion.height) &&
  decide (minDetectionConfidence ≤ confidence)

end MediaPipe

/-- A raster image: dimensions plus a pixel lookup (an abstract pixel
value per coordinate pair). -/
structure Image where
  width : ℕ
  height : ℕ
  pix : ℕ → ℕ → ℕ

/-- Scaling of the 640×480-logical target region to the actual video
dimensions, from `captureTargetRegion`. -/
def scaleRegionToVideo (videoWidth videoHeight : ℕ) (targetRegion : Rect) : Rect :=
  let scaleX : ℚ := (videoWidth : ℚ) / 640
  let scaleY : ℚ := (videoHeight : ℚ) / 480
  { x := targetRegion.x * scaleX
    y := targetRegion.y * scaleY
    width := targetRegion.width * scaleX
    height := targetRegion.height * scaleY }

/-- The crop `drawImage(detectionCanvas, sx, sy, sw, sh, 0, 0, sw, sh)`
onto a fresh canvas of size `sw × sh`: fractional canvas dimensions are
truncated and source sampling is at the floored offset. -/
def cropImage (src : Image) (r : Rect) : Image :=
  { width := r.width.floor.toNat
    height := r.height.floor.toNat
    pix := fun i j => src.pix (r.x.floor.toNat + i) (r.y.floor.toNat + j) }

/-- The scaled target region exceeds the source frame (the bounds check of
`captureTargetRegion`). -/
def regionExceedsFrame (frame : Image) (targetRegion : Rect) : Prop :=
  let scaledRegion := scaleRegionToVideo frame.width frame.height targetRegion
  scaledRegion.x < 0 ∨ scaledRegion.y < 0 ∨
    (frame.width : ℚ) < scaledRegion.x + scaledRegion.width ∨
    (frame.height : ℚ) < scaledRegion.y + scaledRegion.height

instance (frame : Image) (targetRegion : Rect) :
    Decidable (regionExceedsFrame frame targetRegion) := by
  unfold regionExceedsFrame; infer_instance

/-- Capture failure kinds, one per `return null` reason of
`captureTargetRegion` (missing/zero-size/not-ready video; scaled region
out of bounds; empty data URL from encoding). -/
inductive CaptureError where
  | captureUnavailable
  | regionOutOfBounds
  | encodeFailure
deriving DecidableEq

deriving instance DecidableEq for Except

namespace FaceApi

/-- `FaceDetectionManager.captureTargetRegion` of the face-api variant.
The detection canvas is resized to the video dimensions and freshly
redrawn from the raw video element (a 1:1 pixel copy), so the crop reads
only raw frame pixels; `encode` abstracts `cropCanvas.toDataURL`.  The
source returns `string | null`; the embedding refines each `return null`
branch into its logged failure kind, in source order. -/
def captureTargetRegion (video : Option Image) (readyState : ℕ)
    (targetRegion : Rect) (encode : Image → String) : Except CaptureError String :=
  match video with
  | none => .error .captureUnavailable
  | some frame =>
    if frame.width = 0 ∨ frame.height = 0 then .error .captureUnavailable
    else if readyState < 2 then .error .captureUnavailable
    else
      let scaledRegion := scaleRegionToVideo frame.width frame.height targetRegion
      if regionExceedsFrame frame targetRegion then .error .regionOutOfBounds
      else
        let dataURL := encode (cropImage frame scaledRegion)
        if dataURL = "" ∨ dataURL = "data:," then .error .encodeFailure
        else .ok dataURL

end FaceApi

/-- The render targets of one camera session: the raw video element with
its readiness state, the main display canvas (video frame plus detection
annotations), and the UI overlay canvas. -/
structure SessionCanvases where
  video : Option Image
  readyState : ℕ
  displayCanvas : Image
  overlayCanvas : Image

/-- Capture as invoked on a session: `captureTargetRegion` reads only the
raw video element. -/
def captureFromSession (s : SessionCanvases) (targetRegion : Rect)
    (encode : Image → String) : Except CaptureError String :=
  FaceApi.captureTargetRegion s.video s.readyState targetRegion encode

/-- `strokeRect` with `lineWidth 2` on an image: pixels within the 2-pixel
border band of the rectangle take the stroke colour. -/
def strokeRectPix (img : Image) (x y w h : ℕ) (colour : ℕ) : Image :=
  { img with
    pix := fun px py =>
      if x ≤ px ∧ px < x + w ∧ y ≤ py ∧ py < y + h ∧
          (px < x + 2 ∨ x + w ≤ px + 2 ∨ py < y + 2 ∨ y + h ≤ py + 2) then colour
      else img.pix px py }

namespace MediaPipe

/-- The MediaPipe `onResults` drawing onto the main display canvas: the
raw video frame, then one green detection rectangle per detected face
(`strokeRect` with `lineWidth 2`). -/
def renderDetections (video : Image) (boxes : List (ℕ × ℕ × ℕ × ℕ)) : Image :=
  boxes.foldl (fun img b => strokeRectPix img b.1 b.2.1 b.2.2.1 b.2.2.2 1) video

/-- `FaceDetectionManager.captureImage` of the MediaPipe variant: returns
`canvasElement.toDataURL(...)` — the encoding of the current display
canvas (the one `onResults` draws video AND detection annotations onto). -/
def captureImage (canvasElement : Option Image) (encode : Image → String) :
    Option String :=
  match canvasElement with
  | none => none
  | some canvas => some (encode canvas)

end MediaPipe

/-- `getEyeCenter`: the mean of the eye landmark points. -/
def getEyeCenter (eyePoints : List (ℚ × ℚ)) : ℚ × ℚ :=
  ((eyePoints.foldl (fun sum p => sum + p.1) 0) / eyePoints.length,
   (eyePoints.foldl (fun sum p => sum + p.2) 0) / eyePoints.length)

/-- Pose angles produced by `calculateFaceOrientation`. -/
structure FaceOrientation where
  yaw : ℚ
  pitch : ℚ
  roll : ℚ
deriving DecidableEq

/-- `FaceDetectionManager.calculateFaceOrientation` of the face-api
variant.  `atanDeg` abstracts the external `Math.atan2(y, x) * 180 / π`;
all source arithmetic (landmark means, ratios, scaling, and the three
`Math.max(lo, Math.min(hi, v))` clamps) is embedded exactly. -/
def calculateFaceOrientation (atanDeg : ℚ → ℚ → ℚ)
    (nose leftEye rightEye : List (ℚ × ℚ)) : FaceOrientation :=
  let noseTip := nose.getD 4 (0, 0)
  let leftEyeCenter := getEyeCenter leftEye
  let rightEyeCenter := getEyeCenter rightEye
  let eyeDistance := |rightEyeCenter.1 - leftEyeCenter.1|
  let noseCenterX := (leftEyeCenter.1 + rightEyeCenter.1) / 2
  let noseOffsetX := noseTip.1 - noseCenterX
  let yaw := max (-45) (min 45 ((noseOffsetX / eyeDistance) * 60))
  let eyeCenterY := (leftEyeCenter.2 + rightEyeCenter.2) / 2
  let noseToEyeDistance := |noseTip.2 - eyeCenterY|
  let expectedNoseDistance := eyeDistance * (8 / 10)
  let pitch := max (-30) (min 30
    (((noseToEyeDistance - expectedNoseDistance) / expectedNoseDistance) * 30))
  let eyeYDiff := rightEyeCenter.2 - leftEyeCenter.2
  let roll := max (-25) (min 25 (atanDeg eyeYDiff eyeDistance))
  { yaw := yaw, pitch := pitch, roll := roll }

namespace CameraB

theorem handleFrame_capturing (cfg : FaceDetectionConfig) (targetRegion : Rect)
    (s : GateState) (now : ℕ) (results : List FaceDetectionResult)
    (h : s.isCapturing = true) :
    handleFaceDetectionResults cfg targetRegion s now results = s := by
  simp [handleFaceDetectionResults, h]

theorem handleFrame_start (cfg : FaceDetectionConfig) (targetRegion : Rect)
    (s : GateState) (now : ℕ) (results : List FaceDetectionResult)
    (hc : s.isCapturing = false) (ht : s.faceStableTime = none)
    (ha : 0 < (results.filter (validFace cfg targetRegion)).length) :
    handleFaceDetectionResults cfg targetRegion s now results =
      { s with faceStableTime := some now } := by
  simp [handleFaceDetectionResults, hc, ht, ha]

theorem handleFrame_hold (cfg : FaceDetectionConfig) (targetRegion : Rect)
    (s : GateState) (t0 now : ℕ) (results : List FaceDetectionResult)
    (hc : s.isCapturing = false) (ht : s.faceStableTime = some t0)
    (ha : 0 < (results.filter (validFace cfg targetRegion)).length)
    (hlt : now - t0 < 3000) :
    handleFaceDetectionResults cfg targetRegion s now results = s := by
  have hnot : ¬ (3000 ≤ now - t0) := by omega
  simp [handleFaceDetectionResults, hc, ht, ha, hnot]

theorem handleFrame_trigger (cfg : FaceDetectionConfig) (targetRegion : Rect)
    (s : GateState) (t0 now : ℕ) (results : List FaceDetectionResult)
    (hc : s.isCapturing = false) (ht : s.faceStableTime = some t0)
    (ha : 0 < (results.filter (validFace cfg targetRegion)).length)
    (hge : 3000 ≤ now - t0) :
    handleFaceDetectionResults cfg targetRegion s now results =
      { s with isCapturing := true, faceStableTime := none
               pendingCapture := some (now + 100)
               captures := s.captures ++ [now] } := by
  simp [handleFaceDetectionResults, hc, ht, ha, hge]

theorem handleFrame_loss (cfg : FaceDetectionConfig) (targetRegion : Rect)
    (s : GateState) (now : ℕ) (results : List FaceDetectionResult)
    (hc : s.isCapturing = false)
    (ha : (results.filter (validFace cfg targetRegion)).length = 0) :
    handleFaceDetectionResults cfg targetRegion s now results =
      { s with faceStableTime := none } := by
  obtain ⟨fst, ic, pc, pr, cap, em, mr, st⟩ := s
  cases fst <;> simp_all [handleFaceDetectionResults]

theorem runFrames_nil (cfg : FaceDetectionConfig) (targetRegion : Rect)
    (s : GateState) : runFrames cfg targetRegion s [] = s := rfl

theorem runFrames_cons (cfg : FaceDetectionConfig) (targetRegion : Rect)
    (s : GateState) (f : ℕ × List FaceDetectionResult)
    (rest : List (ℕ × List FaceDetectionResult)) :
    runFrames cfg targetRegion s (f :: rest) =
      runFrames cfg targetRegion
        (handleFaceDetectionResults cfg targetRegion s f.1 f.2) rest := rfl

theorem runFrames_capturing_frozen (cfg : FaceDetectionConfig) (targetRegion : Rect) :
    ∀ (frames : List (ℕ × List FaceDetectionResult)) (s : GateState),
    s.isCapturing = true → runFrames cfg targetRegion s frames = s := by
  intro frames
  induction frames with
  | nil => intro s _; rfl
  | cons f rest ih =>
    intro s h
    rw [runFrames_cons, handleFrame_capturing cfg targetRegion s f.1 f.2 h]
    exact ih s h

theorem runFrames_tracking_to_capture (cfg : FaceDetectionConfig) (targetRegion : Rect) (t0 : ℕ) :
    ∀ (frames : List (ℕ × List FaceDetectionResult)) (s : GateState),
    s.faceStableTime = some t0 → s.isCapturing = false →
    (∀ f ∈ frames, 0 < (f.2.filter (validFace cfg targetRegion)).length) →
    ∀ tc rc, frames.find? (fun f => decide (t0 + 3000 ≤ f.1)) = some (tc, rc) →
    (runFrames cfg targetRegion s frames).captures = s.captures ++ [tc] := by
  intro frames
  induction frames with
  | nil => intro s _ _ _ tc rc hfind; simp at hfind
  | cons f rest ih =>
    intro s ht hc hal tc rc hfind
    by_cases hth : t0 + 3000 ≤ f.1
    · have hsome : List.find? (fun g => decide (t0 + 3000 ≤ g.1)) (f :: rest) = some f :=
        List.find?_cons_of_pos (p := fun g => decide (t0 + 3000 ≤ g.1)) rest (by simpa using hth)
      rw [hsome] at hfind
      have hf : f = (tc, rc) := by simpa using hfind
      have hge : 3000 ≤ f.1 - t0 := by omega
      rw [runFrames_cons,
        handleFrame_trigger cfg targetRegion s t0 f.1 f.2 hc ht (hal f (by simp)) hge,
        runFrames_capturing_frozen cfg targetRegion rest _ rfl]
      simp [hf]
    · have hrest : List.find? (fun g => decide (t0 + 3000 ≤ g.1)) rest = some (tc, rc) := by
        have hcons : List.find? (fun g => decide (t0 + 3000 ≤ g.1)) (f :: rest) =
            List.find? (fun g => decide (t0 + 3000 ≤ g.1)) rest :=
          List.find?_cons_of_neg (p := fun g => decide (t0 + 3000 ≤ g.1)) rest
            (by simpa using hth)
        rw [← hcons]; exact hfind
      have hlt : f.1 - t0 < 3000 := by omega
      rw [runFrames_cons,
        handleFrame_hold cfg targetRegion s t0 f.1 f.2 hc ht (hal f (by simp)) hlt]
      exact ih s ht hc (fun g hg => hal g (by simp [hg])) tc rc hrest

theorem runFrames_no_valid (cfg : FaceDetectionConfig) (targetRegion : Rect) :
    ∀ (frames : List (ℕ × List FaceDetectionResult)) (s : GateState),
    s.isCapturing = false → s.captures = [] →
    (∀ f ∈ frames, (f.2.filter (validFace cfg targetRegion)).length = 0) →
    (runFrames cfg targetRegion s frames).captures = [] := by
  intro frames
  induction frames with
  | nil => intro s _ hcap _; simpa [runFrames_nil] using hcap
  | cons f rest ih =>
    intro s hc hcap hall
    rw [runFrames_cons, handleFrame_loss cfg targetRegion s f.1 f.2 hc (hall f (by simp))]
    exact ih _ hc hcap (fun g hg => hall g (by simp [hg]))

theorem episodesShort_no_capture (cfg : FaceDetectionConfig) (targetRegion : Rect) :
    ∀ (frames : List (ℕ × List FaceDetectionResult)) (s : GateState) (cur : Option ℕ),
    s.isCapturing = false → s.captures = [] → s.faceStableTime = cur →
    episodesShort cfg targetRegion cur frames = true →
    (runFrames cfg targetRegion s frames).captures = [] := by
  intro frames
  induction frames with
  | nil => intro s cur _ hcap _ _; simpa [runFrames_nil] using hcap
  | cons f rest ih =>
    intro s cur hc hcap hcur hep
    by_cases hal : 0 < (f.2.filter (validFace cfg targetRegion)).length
    · cases cur with
      | none =>
        rw [runFrames_cons, handleFrame_start cfg targetRegion s f.1 f.2 hc hcur hal]
        simp only [episodesShort, if_pos hal] at hep
        exact ih _ (some f.1) hc hcap rfl hep
      | some t0 =>
        simp only [episodesShort, if_pos hal, Bool.and_eq_true, decide_eq_true_eq] at hep
        rw [runFrames_cons, handleFrame_hold cfg targetRegion s t0 f.1 f.2 hc hcur hal hep.1]
        exact ih s (some t0) hc hcap hcur hep.2
    · have hz : (f.2.filter (validFace cfg targetRegion)).length = 0 := by omega
      rw [runFrames_cons, handleFrame_loss cfg targetRegion s f.1 f.2 hc hz]
      simp only [episodesShort, if_neg hal] at hep
      exact ih _ none hc hcap rfl hep

end CameraB

namespace CameraB

/-- How many reset-timeout firings an event contributes. -/
def resetDelta : CameraEvent → ℕ
  | .resetFire _ => 1
  | _ => 0

/-- Number of reset-timeout firings in a trace. -/
def countResets : List CameraEvent → ℕ
  | [] => 0
  | e :: rest => resetDelta e + countResets rest

/-- Reachability invariant of the ref-based controller, indexed by the
number of reset-timeout firings processed so far: manager availability
mirrors the stopped flag; a pending capture or pending reset implies the
capture window is open (or the session was stopped mid-window); the
stability ref is null while capturing or after stop; at most one more
capture trigger than resets has occurred; and emissions never outrun
capture triggers. -/
def GateInv (s : GateState) (resets : ℕ) : Prop :=
  s.managerReady = !s.stopped ∧
  (s.pendingCapture.isSome → (s.isCapturing = true ∨ s.stopped = true)) ∧
  (s.pendingReset.isSome → (s.isCapturing = true ∨ s.stopped = true)) ∧
  (s.isCapturing = true → s.faceStableTime = none) ∧
  (s.stopped = true → s.faceStableTime = none) ∧
  s.captures.length ≤ resets + 1 ∧
  (s.isCapturing = false → s.stopped = false → s.captures.length ≤ resets) ∧
  s.emitted.length + (if s.pendingCapture.isSome then 1 else 0) ≤ s.captures.length ∧
  (s.pendingReset.isSome → s.pendingCapture.isSome → s.stopped = true)

theorem gateInv_init : GateInv initState 0 := by
  simp [GateInv, initState]

theorem gateInv_step (cfg : FaceDetectionConfig) (targetRegion : Rect)
    (s : GateState) (e : CameraEvent) (k : ℕ)
    (hinv : GateInv s k) (hen : eventEnabled s e = true) :
    GateInv (stepEvent cfg targetRegion s e) (k + resetDelta e) := by
  obtain ⟨fst, ic, pc, pr, cap, em, mr, st⟩ := s
  cases e with
  | frame now results =>
    simp only [eventEnabled] at hen
    cases ic with
    | true =>
      simp only [stepEvent, resetDelta, Nat.add_zero]
      rw [handleFrame_capturing _ _ _ _ _ rfl]
      exact hinv
    | false =>
      rcases hinv with ⟨i1, i2, i3, i4, i5, i6, i7, i8, i9⟩
      have hst : st = false := by
        have h1 : mr = true := hen
        have h2 : mr = !st := i1
        cases st <;> simp_all
      simp only [stepEvent, resetDelta, Nat.add_zero]
      by_cases hal : 0 < (results.filter (validFace cfg targetRegion)).length
      · cases fst with
        | none =>
          rw [handleFrame_start _ _ _ _ _ rfl rfl hal]
          exact ⟨i1, i2, i3, by simp, by simp [hst], i6, i7, i8, i9⟩
        | some t0 =>
          by_cases hth : 3000 ≤ now - t0
          · rw [handleFrame_trigger _ _ _ t0 _ _ rfl rfl hal hth]
            have hpc : pc = none := by
              cases pc with
              | none => rfl
              | some u =>
                rcases i2 rfl with h | h
                · exact absurd h (by simp)
                · exact absurd h (by simp [hst])
            have hpr : pr = none := by
              cases pr with
              | none => rfl
              | some u =>
                rcases i3 rfl with h | h
                · exact absurd h (by simp)
                · exact absurd h (by simp [hst])
            have h7 : cap.length ≤ k := i7 rfl hst
            have h8 : em.length ≤ cap.length := by
              have h := i8
              rw [hpc] at h
              simpa using h
            refine ⟨i1, by simp, by simp [hpr], by simp, by simp [hst], ?_, by simp, ?_,
              by simp [hpr]⟩
            · show (cap ++ [now]).length ≤ k + 1
              simp only [List.length_append, List.length_cons, List.length_nil]
              omega
            · show em.length + (if (some (now + 100)).isSome = true then 1 else 0) ≤
                (cap ++ [now]).length
              simp only [Option.isSome_some, if_pos, List.length_append, List.length_cons,
                List.length_nil]
              omega
          · rw [handleFrame_hold _ _ _ t0 _ _ rfl rfl hal (by omega)]
            exact ⟨i1, i2, i3, i4, i5, i6, i7, i8, i9⟩
      · have hz : (results.filter (validFace cfg targetRegion)).length = 0 := by omega
        rw [handleFrame_loss _ _ _ _ _ rfl hz]
        exact ⟨i1, i2, i3, by simp, by simp [hst], i6, i7, i8, i9⟩
  | captureRun now ok =>
    simp only [eventEnabled, decide_eq_true_eq] at hen
    rcases hinv with ⟨i1, i2, i3, i4, i5, i6, i7, i8, i9⟩
    have hima : ic = true ∨ st = true := by
      have h := i2 (by simp [hen])
      simpa using h
    have h8 : em.length + 1 ≤ cap.length := by
      have h := i8
      rw [hen] at h
      simpa using h
    simp only [stepEvent, resetDelta, Nat.add_zero]
    refine ⟨i1, by simp, fun _ => by simpa using hima, i4, i5, i6, ?_, ?_, by simp⟩
    · intro h1 h2
      exfalso
      have h1x : ic = false := h1
      have h2x : st = false := h2
      rcases hima with h | h <;> simp_all
    · show (if (mr && ok) = true then em ++ [now] else em).length +
        (if (none : Option ℕ).isSome = true then 1 else 0) ≤ cap.length
      by_cases hok : (mr && ok) = true <;> simp [hok] <;> omega
  | resetFire now =>
    simp only [eventEnabled, decide_eq_true_eq] at hen
    rcases hinv with ⟨i1, i2, i3, i4, i5, i6, i7, i8, i9⟩
    have h6 : cap.length ≤ k + 1 := i6
    simp only [stepEvent, resetDelta]
    refine ⟨i1, ?_, by simp, by simp, i5, ?_, ?_, i8, by simp⟩
    · intro hpcs
      exact Or.inr (i9 (by simp [hen]) hpcs)
    · show cap.length ≤ k + 1 + 1
      omega
    · intro _ _
      show cap.length ≤ k + 1
      exact h6
  | manual now ok =>
    rcases hinv with ⟨i1, i2, i3, i4, i5, i6, i7, i8, i9⟩
    simp only [stepEvent, resetDelta, Nat.add_zero]
    by_cases hg : (ic || !mr) = true
    · rw [if_pos hg]
      exact ⟨i1, i2, i3, i4, i5, i6, i7, i8, i9⟩
    · rw [if_neg hg]
      have hic : ic = false := by cases ic <;> simp_all
      have hmr : mr = true := by cases mr <;> simp_all
      have hst : st = false := by
        have h2 : mr = !st := i1
        cases st <;> simp_all
      have hpc : pc = none := by
        cases pc with
        | none => rfl
        | some u =>
          rcases i2 rfl with h | h
          · exact absurd h (by simp [hic])
          · exact absurd h (by simp [hst])
      have h7 : cap.length ≤ k := i7 hic hst
      have h8 : em.length ≤ cap.length := by
        have h := i8
        rw [hpc] at h
        simpa using h
      refine ⟨i1, by simp [hpc], by simp, by simp, by simp [hst], ?_, by simp, ?_,
        by simp [hpc]⟩
      · show (cap ++ [now]).length ≤ k + 1
        simp only [List.length_append, List.length_cons, List.length_nil]
        omega
      · show (if ok = true then em ++ [now] else em).length +
          (if pc.isSome = true then 1 else 0) ≤ (cap ++ [now]).length
        rw [hpc]
        by_cases hok : ok = true <;> simp [hok] <;> omega
  | stop now =>
    rcases hinv with ⟨i1, i2, i3, i4, i5, i6, i7, i8, i9⟩
    simp only [stepEvent, resetDelta, Nat.add_zero]
    exact ⟨by simp, by simp, by simp, by simp, by simp, i6, by simp, i8, by simp⟩

theorem gateInv_run (cfg : FaceDetectionConfig) (targetRegion : Rect) :
    ∀ (events : List CameraEvent) (s : GateState) (k : ℕ),
    GateInv s k → eventsValid cfg targetRegion s events = true →
    GateInv (runEvents cfg targetRegion s events) (k + countResets events) := by
  intro events
  induction events with
  | nil => intro s k hinv _; simpa [runEvents, countResets] using hinv
  | cons e rest ih =>
    intro s k hinv hval
    simp only [eventsValid, Bool.and_eq_true] at hval
    have hstep := gateInv_step cfg targetRegion s e k hinv hval.1
    have := ih (stepEvent cfg targetRegion s e) (k + resetDelta e) hstep hval.2
    have harith : k + resetDelta e + countResets rest = k + countResets (e :: rest) := by
      simp [countResets]; omega
    rw [harith] at this
    simpa [runEvents, List.foldl] using this

end CameraB

/-- Configuration of the interval-based Camera component (first variant in
`Camera.tsx`): 0.5 detection confidence, ±25° yaw, ±20° pitch, 2000 ms
stability threshold, 2000 ms countdown. -/
def cfgA : FaceDetectionConfig :=
  { minDetectionConfidence := 1 / 2, minFrontalConfidence := 6 / 10
    maxYawAngle := 25, maxPitchAngle := 20
    stabilityThreshold := 2000, captureDelay := 2000 }

/-- Configuration of the ref-based Camera component (second variant in
`Camera.tsx`): same thresholds; `stabilityThreshold`/`captureDelay` are 0
("Not used anymore" — the 3000 ms threshold is hard-coded). -/
def cfgB : FaceDetectionConfig :=
  { minDetectionConfidence := 1 / 2, minFrontalConfidence := 6 / 10
    maxYawAngle := 25, maxPitchAngle := 20
    stabilityThreshold := 0, captureDelay := 0 }

/-- The 640×480 target region used by both Camera components. -/
def regionB : Rect := FaceApi.createTargetRegion 640 480

/-- A concrete detection satisfying all five validity criteria for
`regionB`: bounding box (200,100)–(400,300) fully inside the region,
frontal, confidence 0.9, size ratio ≈ 0.40, zero pose angles. -/
def dGood : FaceDetectionResult :=
  { confidence := 9 / 10, isFacingCamera := true
    faceAngle := { yaw := 0, pitch := 0, roll := 0 }
    frontalConfidence := 9 / 10
    bbox := { x := 200, y := 100, width := 200, height := 200 } }

namespace CameraA

theorem runA_append (cfg : FaceDetectionConfig) (targetRegion : Rect)
    (s : GateStateA) (xs ys : List CameraEventA) :
    runA cfg targetRegion s (xs ++ ys) =
      runA cfg targetRegion (runA cfg targetRegion s xs) ys := by
  simp [runA, List.foldl_append]

theorem eventsValidA_append (cfg : FaceDetectionConfig) (targetRegion : Rect) :
    ∀ (xs ys : List CameraEventA) (s : GateStateA),
    eventsValidA cfg targetRegion s (xs ++ ys) =
      (eventsValidA cfg targetRegion s xs &&
        eventsValidA cfg targetRegion (runA cfg targetRegion s xs) ys) := by
  intro xs
  induction xs with
  | nil => intro ys s; simp [eventsValidA, runA]
  | cons e rest ih =>
    intro ys s
    have hcons : ∀ (t : GateStateA) (l : List CameraEventA),
        eventsValidA cfg targetRegion t (e :: l) =
          (eventEnabledA t e &&
            eventsValidA cfg targetRegion (stepA cfg targetRegion t e) l) :=
      fun _ _ => rfl
    have hrun : runA cfg targetRegion s (e :: rest) =
        runA cfg targetRegion (stepA cfg targetRegion s e) rest := by
      simp [runA, List.foldl]
    rw [List.cons_append, hcons, hcons, ih, hrun, Bool.and_assoc]

end CameraA

/-- The stability-check interval firings of the interval-based component,
every 100 ms, split into chunks to evaluate the run stepwise. -/
def ticksA1 : List CameraA.CameraEventA :=
  [CameraA.CameraEventA.frameA 0 [dGood], CameraA.CameraEventA.stabilityTick 100,
   CameraA.CameraEventA.stabilityTick 200, CameraA.CameraEventA.stabilityTick 300,
   CameraA.CameraEventA.stabilityTick 400, CameraA.CameraEventA.stabilityTick 500]

def ticksA2 : List CameraA.CameraEventA :=
  [CameraA.CameraEventA.stabilityTick 600, CameraA.CameraEventA.stabilityTick 700,
   CameraA.CameraEventA.stabilityTick 800, CameraA.CameraEventA.stabilityTick 900,
   CameraA.CameraEventA.stabilityTick 1000]

def ticksA3 : List CameraA.CameraEventA :=
  [CameraA.CameraEventA.stabilityTick 1100, CameraA.CameraEventA.stabilityTick 1200,
   CameraA.CameraEventA.stabilityTick 1300, CameraA.CameraEventA.stabilityTick 1400,
   CameraA.CameraEventA.stabilityTick 1500]

def ticksA4 : List CameraA.CameraEventA :=
  [CameraA.CameraEventA.stabilityTick 1600, CameraA.CameraEventA.stabilityTick 1700,
   CameraA.CameraEventA.stabilityTick 1800, CameraA.CameraEventA.stabilityTick 1900,
   CameraA.CameraEventA.stabilityTick 2000]

def ticksA5 : List CameraA.CameraEventA :=
  [CameraA.CameraEventA.countdownTick 3000, CameraA.CameraEventA.countdownTick 4000]

/-- A continuously aligned session of the interval-based component up to
the stability tick at t = 2000 ms, the instant elapsed tracking time first
reaches the 2000 ms stability threshold. -/
def traceA_toThreshold : List CameraA.CameraEventA :=
  ticksA1 ++ (ticksA2 ++ (ticksA3 ++ ticksA4))

/-- The same session continued through the 2-second countdown interval to
the capture at t = 4000 ms. -/
def traceA_full : List CameraA.CameraEventA :=
  traceA_toThreshold ++ ticksA5

def stateA1 : CameraA.GateStateA :=
  { faceInRegion := true, faceStableTime := some 0, isCapturing := false
    countdown := none, stabilityNext := some 600, countdownNext := none
    pendingResetA := none, capturesA := [], stoppedA := false }

def stateA2 : CameraA.GateStateA := { stateA1 with stabilityNext := some 1100 }

def stateA3 : CameraA.GateStateA := { stateA1 with stabilityNext := some 1600 }

def stateA4 : CameraA.GateStateA :=
  { stateA1 with stabilityNext := none, countdown := some 2, countdownNext := some 3000 }

def stateA5 : CameraA.GateStateA :=
  { stateA1 with stabilityNext := none, countdown := some 0, countdownNext := none
                 isCapturing := true, capturesA := [4000], pendingResetA := some 5000 }

set_option maxRecDepth 4000 in
theorem runA_chunk1 :
    CameraA.runA cfgA regionB CameraA.initStateA ticksA1 = stateA1 ∧
    CameraA.eventsValidA cfgA regionB CameraA.initStateA ticksA1 = true := by
  decide

set_option maxRecDepth 4000 in
theorem runA_chunk2 :
    CameraA.runA cfgA regionB stateA1 ticksA2 = stateA2 ∧
    CameraA.eventsValidA cfgA regionB stateA1 ticksA2 = true := by
  decide

set_option maxRecDepth 4000 in
theorem runA_chunk3 :
    CameraA.runA cfgA regionB stateA2 ticksA3 = stateA3 ∧
    CameraA.eventsValidA cfgA regionB stateA2 ticksA3 = true := by
  decide

set_option maxRecDepth 4000 in
theorem runA_chunk4 :
    CameraA.runA cfgA regionB stateA3 ticksA4 = stateA4 ∧
    CameraA.eventsValidA cfgA regionB stateA3 ticksA4 = true := by
  decide

set_option maxRecDepth 4000 in
theorem runA_chunk5 :
    CameraA.runA cfgA regionB stateA4 ticksA5 = stateA5 ∧
    CameraA.eventsValidA cfgA regionB stateA4 ticksA5 = true := by
  decide

theorem runA_toThreshold :
    CameraA.runA cfgA regionB CameraA.initStateA traceA_toThreshold = stateA4 := by
  rw [traceA_toThreshold, CameraA.runA_append, runA_chunk1.1, CameraA.runA_append,
    runA_chunk2.1, CameraA.runA_append, runA_chunk3.1, runA_chunk4.1]

theorem runA_full :
    CameraA.runA cfgA regionB CameraA.initStateA traceA_full = stateA5 := by
  rw [traceA_full, CameraA.runA_append, runA_toThreshold, runA_chunk5.1]

theorem eventsValidA_full :
    CameraA.eventsValidA cfgA regionB CameraA.initStateA traceA_full = true := by
  rw [traceA_full, CameraA.eventsValidA_append, runA_toThreshold, runA_chunk5.2,
    traceA_toThreshold, CameraA.eventsValidA_append, runA_chunk1.1, runA_chunk1.2,
    CameraA.eventsValidA_append, runA_chunk2.1, runA_chunk2.2,
    CameraA.eventsValidA_append, runA_chunk3.1, runA_chunk3.2, runA_chunk4.2]
  rfl

/-- Claim C1, counterexample: in the interval-based Camera component, with
a continuously aligned face from t = 0 (config: 2000 ms stability
threshold, 2000 ms countdown), no capture has fired at t = 2000 ms — the
tick at which elapsed tracking time first reaches the stability threshold
— and the single capture fires only at t = 4000 ms, when the separate
countdown interval reaches zero.  So the capture does not fire at the
instant elapsed time first reaches the threshold. -/
theorem intervalVariantCaptureNotAtThreshold :
    CameraA.eventsValidA cfgA regionB CameraA.initStateA traceA_full = true ∧
    (CameraA.runA cfgA regionB CameraA.initStateA traceA_toThreshold).capturesA = [] ∧
    (CameraA.runA cfgA regionB CameraA.initStateA traceA_full).capturesA = [4000] ∧
    (4000 : ℕ) = 2000 + cfgA.captureDelay ∧ (4000 : ℕ) ≠ 2000 := by
  refine ⟨eventsValidA_full, ?_, ?_, by decide, by decide⟩
  · rw [runA_toThreshold]; decide
  · rw [runA_full]; decide

/-- Claim C1 (amended): in the ref-based Camera component, for every
sequence of detection frames in which alignment holds on every frame,
exactly one capture fires, at the first frame whose time reaches the
stability start plus the hard-coded 3000 ms threshold — never earlier,
never twice; countdown display completion and the capture trigger are the
same event there.  (In the interval-based component the capture instead
fires `captureDelay` after the threshold, at countdown-interval zero.) -/
theorem autoCaptureOnceAtFirstThresholdFrame (cfg : FaceDetectionConfig)
    (targetRegion : Rect) (t0 : ℕ) (r0 : List FaceDetectionResult)
    (rest : List (ℕ × List FaceDetectionResult))
    (tc : ℕ) (rc : List FaceDetectionResult)
    (hal : ∀ f ∈ (t0, r0) :: rest, 0 < (f.2.filter (validFace cfg targetRegion)).length)
    (hfind : ((t0, r0) :: rest).find? (fun f => decide (t0 + 3000 ≤ f.1)) = some (tc, rc)) :
    (CameraB.runFrames cfg targetRegion CameraB.initState ((t0, r0) :: rest)).captures =
      [tc] := by
  have hrest : rest.find? (fun f => decide (t0 + 3000 ≤ f.1)) = some (tc, rc) := by
    have hcons : ((t0, r0) :: rest).find? (fun f => decide (t0 + 3000 ≤ f.1)) =
        rest.find? (fun f => decide (t0 + 3000 ≤ f.1)) :=
      List.find?_cons_of_neg (p := fun f => decide (t0 + 3000 ≤ f.1)) rest
        (by simp)
    rw [← hcons]
    exact hfind
  rw [CameraB.runFrames_cons,
    CameraB.handleFrame_start cfg targetRegion CameraB.initState t0 r0 rfl rfl
      (hal (t0, r0) (by simp))]
  have haux := CameraB.runFrames_tracking_to_capture cfg targetRegion t0 rest
    { CameraB.initState with faceStableTime := some t0 } rfl rfl
    (fun f hf => hal f (by simp [hf])) tc rc hrest
  simpa [CameraB.initState] using haux

/-- Concrete aligned frame sequence for the C1 witness: frames at 0, 1000,
3000 and 3100 ms, all with a valid face. -/
def framesW : List (ℕ × List FaceDetectionResult) :=
  [(0, [dGood]), (1000, [dGood]), (3000, [dGood]), (3100, [dGood])]

/-- Witness for the amended C1 theorem: on `framesW` exactly one capture
fires, at the first frame reaching 3000 ms elapsed, and none after. -/
theorem autoCaptureOnceAtFirstThresholdFrameWitness :
    (CameraB.runFrames cfgB regionB CameraB.initState framesW).captures = [3000] :=
  autoCaptureOnceAtFirstThresholdFrame cfgB regionB 0 [dGood]
    [(1000, [dGood]), (3000, [dGood]), (3100, [dGood])] 3000 [dGood]
    (by decide) (by decide)

/-- State of the interval-based component right after `stopCamera` at
t = 4500 ms, during the post-capture reset window: stopped, but with
`isCapturing` still set and the reset timeout still pending. -/
def stateA6 : CameraA.GateStateA :=
  { faceInRegion := false, faceStableTime := none, isCapturing := true
    countdown := none, stabilityNext := none, countdownNext := none
    pendingResetA := some 5000, capturesA := [4000], stoppedA := true }

/-- The aligned session with capture at t = 4000 ms, stopped at
t = 4500 ms. -/
def traceA_stopped : List CameraA.CameraEventA :=
  traceA_full ++ [CameraA.CameraEventA.stopA 4500]

theorem runA_stopped :
    CameraA.runA cfgA regionB CameraA.initStateA traceA_stopped = stateA6 := by
  rw [traceA_stopped, CameraA.runA_append, runA_full]; decide

/-- Claim C9: `stopCamera` clears the stability and countdown intervals
but NOT the pending post-capture reset timeout.  Stopping at t = 4500 ms,
500 ms after a capture, leaves the session stopped with `isCapturing`
still true and the reset timeout still pending; that timeout then fires at
t = 5000 ms — after the stop — and mutates the disposed session's state
(`isCapturing` flips to false). -/
theorem stopLeavesDanglingResetTimeout :
    CameraA.eventsValidA cfgA regionB CameraA.initStateA
      (traceA_stopped ++ [CameraA.CameraEventA.resetFireA 5000]) = true ∧
    (CameraA.runA cfgA regionB CameraA.initStateA traceA_stopped).stoppedA = true ∧
    (CameraA.runA cfgA regionB CameraA.initStateA traceA_stopped).isCapturing = true ∧
    (CameraA.runA cfgA regionB CameraA.initStateA traceA_stopped).pendingResetA =
      some 5000 ∧
    (CameraA.runA cfgA regionB CameraA.initStateA
      (traceA_stopped ++ [CameraA.CameraEventA.resetFireA 5000])).isCapturing = false := by
  have hval : CameraA.eventsValidA cfgA regionB CameraA.initStateA
      (traceA_stopped ++ [CameraA.CameraEventA.resetFireA 5000]) = true := by
    rw [CameraA.eventsValidA_append, traceA_stopped, CameraA.eventsValidA_append,
      CameraA.runA_append, runA_full, eventsValidA_full]
    have h1 : CameraA.eventsValidA cfgA regionB stateA5
        [CameraA.CameraEventA.stopA 4500] = true := by decide
    have h2 : CameraA.runA cfgA regionB stateA5 [CameraA.CameraEventA.stopA 4500] =
        stateA6 := by decide
    rw [h1, h2]
    decide
  refine ⟨hval, ?_, ?_, ?_, ?_⟩
  · rw [runA_stopped]; decide
  · rw [runA_stopped]; decide
  · rw [runA_stopped]; decide
  · rw [CameraA.runA_append, runA_stopped]; decide

/-- Claim C5: in the ref-based Camera component, the stability timer is
started on the first aligned frame after not tracking; while tracking with
elapsed time below the 3000 ms threshold, a further aligned frame changes
nothing (the timer is never restarted); a frame without a valid face nulls
the timer and fires no capture; and on every frame sequence whose maximal
aligned runs all stay below the threshold, zero captures fire. -/
theorem stabilityTimerMonotone (cfg : FaceDetectionConfig) (targetRegion : Rect) :
    (∀ (s : CameraB.GateState) (now : ℕ) (results : List FaceDetectionResult),
      s.isCapturing = false → s.faceStableTime = none →
      0 < (results.filter (validFace cfg targetRegion)).length →
      (CameraB.handleFaceDetectionResults cfg targetRegion s now results).faceStableTime =
        some now) ∧
    (∀ (s : CameraB.GateState) (t0 now : ℕ) (results : List FaceDetectionResult),
      s.isCapturing = false → s.faceStableTime = some t0 →
      0 < (results.filter (validFace cfg targetRegion)).length → now - t0 < 3000 →
      CameraB.handleFaceDetectionResults cfg targetRegion s now results = s) ∧
    (∀ (s : CameraB.GateState) (now : ℕ) (results : List FaceDetectionResult),
      s.isCapturing = false →
      (results.filter (validFace cfg targetRegion)).length = 0 →
      (CameraB.handleFaceDetectionResults cfg targetRegion s now results).faceStableTime =
        none ∧
      (CameraB.handleFaceDetectionResults cfg targetRegion s now results).captures =
        s.captures) ∧
    (∀ frames : List (ℕ × List FaceDetectionResult),
      CameraB.episodesShort cfg targetRegion none frames = true →
      (CameraB.runFrames cfg targetRegion CameraB.initState frames).captures = []) := by
  refine ⟨?_, ?_, ?_, ?_⟩
  · intro s now results hc ht ha
    rw [CameraB.handleFrame_start cfg targetRegion s now results hc ht ha]
  · intro s t0 now results hc ht ha hlt
    exact CameraB.handleFrame_hold cfg targetRegion s t0 now results hc ht ha hlt
  · intro s now results hc ha
    rw [CameraB.handleFrame_loss cfg targetRegion s now results hc ha]
    exact ⟨rfl, rfl⟩
  · intro frames hep
    exact CameraB.episodesShort_no_capture cfg targetRegion frames CameraB.initState none
      rfl rfl rfl hep

/-- A state tracking a face since t = 0 (stability ref set). -/
def trackingStateW : CameraB.GateState :=
  { CameraB.initState with faceStableTime := some 0 }

/-- Frame sequence whose aligned run is lost at 2000 ms, before the
3000 ms threshold. -/
def framesShortW : List (ℕ × List FaceDetectionResult) :=
  [(0, [dGood]), (1000, [dGood]), (2000, [])]

/-- Witness for C5 at concrete states and frames. -/
theorem stabilityTimerMonotoneWitness :
    (CameraB.handleFaceDetectionResults cfgB regionB CameraB.initState 5
      [dGood]).faceStableTime = some 5 ∧
    CameraB.handleFaceDetectionResults cfgB regionB trackingStateW 1000 [dGood] =
      trackingStateW ∧
    (CameraB.handleFaceDetectionResults cfgB regionB trackingStateW 1500
      []).faceStableTime = none ∧
    (CameraB.runFrames cfgB regionB CameraB.initState framesShortW).captures = [] :=
  ⟨(stabilityTimerMonotone cfgB regionB).1 CameraB.initState 5 [dGood] rfl rfl (by decide),
   (stabilityTimerMonotone cfgB regionB).2.1 trackingStateW 0 1000 [dGood] rfl rfl
     (by decide) (by decide),
   ((stabilityTimerMonotone cfgB regionB).2.2.1 trackingStateW 1500 [] rfl (by decide)).1,
   (stabilityTimerMonotone cfgB regionB).2.2.2 framesShortW (by decide)⟩

/-- Claim C2 (amended): after every capture attempt (success or failure)
the ref-based controller schedules the capture-state reset timeout exactly
1000 ms later (the cooldown); while `isCapturing` every frame evaluation
and every manual request is rejected with no state change; and when the
reset fires the controller is back to not-capturing with the stability
timer null. -/
theorem cooldownIsOneSecondReset (cfg : FaceDetectionConfig) (targetRegion : Rect) :
    (∀ (s : CameraB.GateState) (now : ℕ) (ok : Bool),
      (CameraB.stepEvent cfg targetRegion s
        (CameraB.CameraEvent.captureRun now ok)).pendingReset = some (now + 1000)) ∧
    (∀ (s : CameraB.GateState) (now : ℕ) (results : List FaceDetectionResult),
      s.isCapturing = true →
      CameraB.stepEvent cfg targetRegion s (CameraB.CameraEvent.frame now results) = s) ∧
    (∀ (s : CameraB.GateState) (now : ℕ) (ok : Bool), s.isCapturing = true →
      CameraB.stepEvent cfg targetRegion s (CameraB.CameraEvent.manual now ok) = s) ∧
    (∀ (events : List CameraB.CameraEvent) (u : ℕ),
      CameraB.eventsValid cfg targetRegion CameraB.initState events = true →
      (CameraB.runEvents cfg targetRegion CameraB.initState events).pendingReset = some u →
      (CameraB.stepEvent cfg targetRegion
        (CameraB.runEvents cfg targetRegion CameraB.initState events)
        (CameraB.CameraEvent.resetFire u)).isCapturing = false ∧
      (CameraB.stepEvent cfg targetRegion
        (CameraB.runEvents cfg targetRegion CameraB.initState events)
        (CameraB.CameraEvent.resetFire u)).faceStableTime = none ∧
      (CameraB.stepEvent cfg targetRegion
        (CameraB.runEvents cfg targetRegion CameraB.initState events)
        (CameraB.CameraEvent.resetFire u)).pendingReset = none) := by
  refine ⟨fun s now ok => rfl, ?_, ?_, ?_⟩
  · intro s now results h
    exact CameraB.handleFrame_capturing cfg targetRegion s now results h
  · intro s now ok h
    simp [CameraB.stepEvent, h]
  · intro events u hval hpr
    obtain ⟨i1, i2, i3, i4, i5, i6, i7, i8, i9⟩ :=
      CameraB.gateInv_run cfg targetRegion events CameraB.initState 0
        CameraB.gateInv_init hval
    have hts : (CameraB.runEvents cfg targetRegion CameraB.initState
        events).faceStableTime = none := by
      rcases i3 (by simp [hpr]) with h | h
      · exact i4 h
      · exact i5 h
    exact ⟨rfl, hts, rfl⟩

/-- A session of the ref-based component: aligned from t = 0, capture
triggered at t = 3000 ms, `performSingleCapture` at 3100 ms, reset timeout
at 4100 ms, then a manual capture at t = 4200 ms. -/
def traceB_recapture : List CameraB.CameraEvent :=
  [CameraB.CameraEvent.frame 0 [dGood], CameraB.CameraEvent.frame 3000 [dGood],
   CameraB.CameraEvent.captureRun 3100 true, CameraB.CameraEvent.resetFire 4100,
   CameraB.CameraEvent.manual 4200 true]

set_option maxRecDepth 8000 in
/-- Claim C2, counterexample: the post-capture block lasts only the
1000 ms reset timeout, not a 5000 ms cooldown — a manual capture at
t = 4200 ms, just 1200 ms after the capture attempt at 3000 ms and well
inside the claimed 5-second cooldown, is accepted and a second capture
fires. -/
theorem captureAcceptedWithinClaimedCooldown :
    CameraB.eventsValid cfgB regionB CameraB.initState traceB_recapture = true ∧
    (CameraB.runEvents cfgB regionB CameraB.initState traceB_recapture).captures =
      [3000, 4200] ∧
    (4200 : ℕ) < 3000 + 5000 :=
  ⟨by decide, by decide, by decide⟩

/-- Witness cycle for C6: one full automatic capture cycle. -/
def traceB_cycle : List CameraB.CameraEvent :=
  [CameraB.CameraEvent.frame 0 [dGood], CameraB.CameraEvent.frame 3000 [dGood],
   CameraB.CameraEvent.captureRun 3100 true, CameraB.CameraEvent.resetFire 4100]

/-- Claim C6: for every valid interleaving of frame callbacks, timer
callbacks, manual requests and stop, the number of capture starts never
exceeds the number of reset firings plus one (at most one capture in
flight), emissions never outrun capture starts (at most one image per
cycle or manual request), a pending asynchronous capture implies the
`isCapturing` guard is up (unless the session was stopped mid-window), and
the trigger step sets `isCapturing` in the same step that schedules the
asynchronous capture work. -/
theorem captureReentrancyGuard (cfg : FaceDetectionConfig) (targetRegion : Rect)
    (events : List CameraB.CameraEvent)
    (hval : CameraB.eventsValid cfg targetRegion CameraB.initState events = true) :
    (CameraB.runEvents cfg targetRegion CameraB.initState events).captures.length ≤
      CameraB.countResets events + 1 ∧
    (CameraB.runEvents cfg targetRegion CameraB.initState events).emitted.length ≤
      (CameraB.runEvents cfg targetRegion CameraB.initState events).captures.length ∧
    ((CameraB.runEvents cfg targetRegion CameraB.initState
        events).pendingCapture.isSome →
      (CameraB.runEvents cfg targetRegion CameraB.initState events).isCapturing = true ∨
      (CameraB.runEvents cfg targetRegion CameraB.initState events).stopped = true) ∧
    (∀ (s : CameraB.GateState) (t0 now : ℕ) (results : List FaceDetectionResult),
      s.isCapturing = false → s.faceStableTime = some t0 →
      0 < (results.filter (validFace cfg targetRegion)).length → 3000 ≤ now - t0 →
      CameraB.handleFaceDetectionResults cfg targetRegion s now results =
        { s with isCapturing := true, faceStableTime := none
                 pendingCapture := some (now + 100)
                 captures := s.captures ++ [now] }) := by
  obtain ⟨i1, i2, i3, i4, i5, i6, i7, i8, i9⟩ :=
    CameraB.gateInv_run cfg targetRegion events CameraB.initState 0
      CameraB.gateInv_init hval
  refine ⟨by simpa using i6, le_trans (Nat.le_add_right _ _) i8, i2, ?_⟩
  intro s t0 now results hc ht ha hth
  exact CameraB.handleFrame_trigger cfg targetRegion s t0 now results hc ht ha hth

set_option maxRecDepth 8000 in
/-- Witness for C6 on a concrete full capture cycle. -/
theorem captureReentrancyGuardWitness :
    (CameraB.runEvents cfgB regionB CameraB.initState traceB_cycle).captures.length ≤
      CameraB.countResets traceB_cycle + 1 ∧
    (CameraB.runEvents cfgB regionB CameraB.initState traceB_cycle).emitted.length ≤
      (CameraB.runEvents cfgB regionB CameraB.initState traceB_cycle).captures.length :=
  ⟨(captureReentrancyGuard cfgB regionB traceB_cycle (by decide)).1,
   (captureReentrancyGuard cfgB regionB traceB_cycle (by decide)).2.1⟩

/-- Claim C7: in the ref-based Camera component, a manual capture request
arriving while not capturing (phases Idle/Tracking/Countdown) and with the
session initialized transitions to Capturing in the same step, resets any
in-progress stability timer, and captures immediately; while `isCapturing`
(Capturing or the post-capture cooldown window) a manual request changes
nothing. -/
theorem manualCaptureImmediate (cfg : FaceDetectionConfig) (targetRegion : Rect) :
    (∀ (s : CameraB.GateState) (now : ℕ) (ok : Bool),
      s.isCapturing = false → s.managerReady = true →
      (CameraB.stepEvent cfg targetRegion s
        (CameraB.CameraEvent.manual now ok)).isCapturing = true ∧
      (CameraB.stepEvent cfg targetRegion s
        (CameraB.CameraEvent.manual now ok)).faceStableTime = none ∧
      (CameraB.stepEvent cfg targetRegion s
        (CameraB.CameraEvent.manual now ok)).captures = s.captures ++ [now]) ∧
    (∀ (s : CameraB.GateState) (now : ℕ) (ok : Bool), s.isCapturing = true →
      CameraB.stepEvent cfg targetRegion s (CameraB.CameraEvent.manual now ok) = s) := by
  constructor
  · intro s now ok hc hm
    have hg : (s.isCapturing || !s.managerReady) = false := by simp [hc, hm]
    simp [CameraB.stepEvent, hg]
  · intro s now ok hc
    simp [CameraB.stepEvent, hc]

/-- Witness for C7: a manual request while tracking captures immediately
and clears the timer. -/
theorem manualCaptureImmediateWitness :
    (CameraB.stepEvent cfgB regionB trackingStateW
      (CameraB.CameraEvent.manual 500 true)).isCapturing = true ∧
    (CameraB.stepEvent cfgB regionB trackingStateW
      (CameraB.CameraEvent.manual 500 true)).faceStableTime = none ∧
    (CameraB.stepEvent cfgB regionB trackingStateW
      (CameraB.CameraEvent.manual 500 true)).captures = trackingStateW.captures ++ [500] :=
  (manualCaptureImmediate cfgB regionB).1 trackingStateW 500 true rfl rfl

/-- A capture cycle stopping right after `performSingleCapture`, with the
reset timeout pending for t = 4100 ms. -/
def traceB_pend : List CameraB.CameraEvent :=
  [CameraB.CameraEvent.frame 0 [dGood], CameraB.CameraEvent.frame 3000 [dGood],
   CameraB.CameraEvent.captureRun 3100 true]

set_option maxRecDepth 8000 in
/-- Witness for the amended C2 theorem: firing the pending reset returns
the concrete session to not-capturing with a null stability timer. -/
theorem cooldownIsOneSecondResetWitness :
    (CameraB.stepEvent cfgB regionB
      (CameraB.runEvents cfgB regionB CameraB.initState traceB_pend)
      (CameraB.CameraEvent.resetFire 4100)).isCapturing = false ∧
    (CameraB.stepEvent cfgB regionB
      (CameraB.runEvents cfgB regionB CameraB.initState traceB_pend)
      (CameraB.CameraEvent.resetFire 4100)).faceStableTime = none ∧
    (CameraB.stepEvent cfgB regionB
      (CameraB.runEvents cfgB regionB CameraB.initState traceB_pend)
      (CameraB.CameraEvent.resetFire 4100)).pendingReset = none :=
  (cooldownIsOneSecondReset cfgB regionB).2.2.2 traceB_pend 4100 (by decide) (by decide)

/-- A face bounding box partially outside the MediaPipe target region
(left edge at 200 < region left 224) whose center is inside it. -/
def bboxPartial : BBox := { x := 200, y := 200, width := 100, height := 80 }

/-- Claim C3, counterexample: the MediaPipe `isInTargetRegion` — a cited
validity test — accepts a face whose bounding box is partially outside the
target region, because it checks only the bounding-box CENTER and the
confidence, not the four edges.  So "a face counts as valid iff all five
criteria hold" fails on that code path: criterion 1 (entirely inside) is
false while the face still counts as in-region. -/
theorem centerBasedValidityAcceptsPartialFace :
    MediaPipe.isInTargetRegion (7 / 10) (9 / 10) bboxPartial
      (MediaPipe.createTargetRegion 640 480) = true ∧
    faceFullyInRegion (MediaPipe.createTargetRegion 640 480) bboxPartial = false :=
  ⟨by decide, by decide⟩

theorem validFace_false_of_not_fullyIn (cfg : FaceDetectionConfig) (targetRegion : Rect)
    (d : FaceDetectionResult)
    (h : faceFullyInRegion targetRegion d.bbox = false) :
    validFace cfg targetRegion d = false := by
  simp [validFace, h]

/-- Claim C3 (amended): in the face-api Camera components a face counts as
valid iff exactly the five criteria hold (bounding box entirely within the
region, facing the camera, confidence ≥ minimum, size ratio in
[0.08, 0.80], |yaw| and |pitch| within bounds); consequently, in the
ref-based gate, a frame sequence in which every detected face has its
bounding box not entirely inside the region produces zero captures,
regardless of duration.  (The MediaPipe variant instead judges validity by
bbox-center containment plus confidence only.) -/
theorem fiveCriteriaValidity (cfg : FaceDetectionConfig) (targetRegion : Rect)
    (d : FaceDetectionResult) (frames : List (ℕ × List FaceDetectionResult))
    (hout : ∀ f ∈ frames, ∀ det ∈ f.2,
      faceFullyInRegion targetRegion det.bbox = false) :
    (validFace cfg targetRegion d = true ↔ meetsFiveCriteria cfg targetRegion d) ∧
    (CameraB.runFrames cfg targetRegion CameraB.initState frames).captures = [] := by
  constructor
  · simp only [validFace, faceFullyInRegion, meetsFiveCriteria, Bool.and_eq_true,
      decide_eq_true_eq]
    tauto
  · apply CameraB.runFrames_no_valid cfg targetRegion frames CameraB.initState rfl rfl
    intro f hf
    rw [List.length_eq_zero]
    rw [List.filter_eq_nil_iff]
    intro det hdet
    rw [validFace_false_of_not_fullyIn cfg targetRegion det (hout f hf det hdet)]
    simp

/-- A face whose bounding box sticks out of the 640×480 target region on
the left (left edge 100 < region left 176). -/
def dOutside : FaceDetectionResult :=
  { confidence := 9 / 10, isFacingCamera := true
    faceAngle := { yaw := 0, pitch := 0, roll := 0 }
    frontalConfidence := 9 / 10
    bbox := { x := 100, y := 100, width := 200, height := 200 } }

/-- Frames whose only face is partially outside the region on every
frame. -/
def framesOutsideW : List (ℕ × List FaceDetectionResult) :=
  [(0, [dOutside]), (2000, [dOutside]), (5000, [dOutside])]

/-- Witness for the amended C3 theorem: `dGood` is valid (and meets the
five criteria), and the partially-outside face never triggers a capture
even over 5 seconds. -/
theorem fiveCriteriaValidityWitness :
    meetsFiveCriteria cfgB regionB dGood ∧
    (CameraB.runFrames cfgB regionB CameraB.initState framesOutsideW).captures = [] :=
  ⟨(fiveCriteriaValidity cfgB regionB dGood framesOutsideW (by decide)).1.mp (by decide),
   (fiveCriteriaValidity cfgB regionB dGood framesOutsideW (by decide)).2⟩

/-- Claim C4 (amended): the face-api `captureTargetRegion` output is
exactly the scaled-TargetRegion crop of the raw video frame, pixel for
pixel, and is independent of whatever was drawn on the display or overlay
canvases that frame (the crop is taken from a detection canvas freshly
redrawn from the raw video element).  (The MediaPipe `captureImage`
instead encodes the annotated full display canvas.) -/
theorem captureTargetRegionIsRawCrop :
    (∀ (s1 s2 : SessionCanvases) (targetRegion : Rect) (encode : Image → String),
      s1.video = s2.video → s1.readyState = s2.readyState →
      captureFromSession s1 targetRegion encode =
        captureFromSession s2 targetRegion encode) ∧
    (∀ (frame : Image) (readyState : ℕ) (targetRegion : Rect) (encode : Image → String),
      frame.width ≠ 0 → frame.height ≠ 0 → 2 ≤ readyState →
      ¬ regionExceedsFrame frame targetRegion →
      encode (cropImage frame
        (scaleRegionToVideo frame.width frame.height targetRegion)) ≠ "" →
      encode (cropImage frame
        (scaleRegionToVideo frame.width frame.height targetRegion)) ≠ "data:," →
      FaceApi.captureTargetRegion (some frame) readyState targetRegion encode =
        Except.ok (encode (cropImage frame
          (scaleRegionToVideo frame.width frame.height targetRegion)))) ∧
    (∀ (frame : Image) (targetRegion : Rect) (i j : ℕ),
      (cropImage frame (scaleRegionToVideo frame.width frame.height targetRegion)).pix i j =
        frame.pix
          ((scaleRegionToVideo frame.width frame.height targetRegion).x.floor.toNat + i)
          ((scaleRegionToVideo frame.width frame.height targetRegion).y.floor.toNat + j)) := by
  refine ⟨?_, ?_, ?_⟩
  · intro s1 s2 targetRegion encode hv hr
    unfold captureFromSession
    rw [hv, hr]
  · intro frame readyState targetRegion encode hw hh hr hb he1 he2
    simp only [FaceApi.captureTargetRegion]
    rw [if_neg (by tauto), if_neg (by omega), if_neg hb, if_neg (by tauto)]
  · intro frame targetRegion i j
    rfl

/-- Raw video frame for the C4 counterexample: all pixels 0. -/
def rawVideoC4 : Image := { width := 640, height := 480, pix := fun _ _ => 0 }

/-- The MediaPipe display canvas after `onResults` drew the raw frame plus
one detection rectangle at (224,144) size 64×64. -/
def annotatedCanvasC4 : Image :=
  MediaPipe.renderDetections rawVideoC4 [(224, 144, 64, 64)]

/-- A pixel-probing encoder: records dimensions and the pixel value at
(224, 144). -/
def probeEncode : Image → String := fun img =>
  toString img.width ++ "x" ++ toString img.height ++ ":" ++ toString (img.pix 224 144)

/-- Claim C4, counterexample: the MediaPipe `captureImage` — a cited
capture path — returns the encoding of the current display canvas, onto
which `onResults` draws detection rectangles.  Concretely, with a raw
frame of zeros and one drawn detection box, the captured image is the full
640×480 annotated canvas whose pixel (224,144) is the stroke colour 1,
whereas the TargetRegion crop of the raw frame is 192×192 with pixel value
0 — so the output is neither the region crop nor overlay-independent. -/
theorem mediapipeCaptureLeaksOverlay :
    MediaPipe.captureImage (some annotatedCanvasC4) probeEncode =
      some (probeEncode annotatedCanvasC4) ∧
    probeEncode annotatedCanvasC4 = "640x480:1" ∧
    probeEncode (cropImage rawVideoC4 (MediaPipe.createTargetRegion 640 480)) =
      "192x192:0" ∧
    annotatedCanvasC4.pix 224 144 = 1 ∧ rawVideoC4.pix 224 144 = 0 :=
  ⟨rfl, by decide, by decide, by decide, rfl⟩

/-- A concrete non-degenerate 640×480 frame. -/
def frameOkC4 : Image := { width := 640, height := 480, pix := fun x y => x + y }

/-- An encoder recording only the width. -/
def widthEncode : Image → String := fun img => toString img.width

/-- Witness for the amended C4 theorem: a successful capture on a concrete
frame returns the encoded raw-frame crop. -/
theorem captureTargetRegionIsRawCropWitness :
    FaceApi.captureTargetRegion (some frameOkC4) 2 regionB widthEncode =
      Except.ok (widthEncode (cropImage frameOkC4
        (scaleRegionToVideo frameOkC4.width frameOkC4.height regionB))) :=
  captureTargetRegionIsRawCrop.2.1 frameOkC4 2 regionB widthEncode (by decide) (by decide)
    (by decide) (by decide) (by decide) (by decide)

/-- Claim C8: `captureTargetRegion` fails, returning a failure value
rather than throwing, exactly when the video is unavailable, has zero
dimensions or is not ready (CaptureUnavailable), when the scaled target
region exceeds the source frame (RegionOutOfBounds), or when encoding
yields empty data (EncodeFailure); in every other case it returns the
non-empty encoded crop.  A failed capture attempt is not fatal to the
controller: the capture step still schedules the reset and the machine
proceeds. -/
theorem captureFailsExactlyWhen (readyState : ℕ) (targetRegion : Rect)
    (encode : Image → String) :
    (FaceApi.captureTargetRegion none readyState targetRegion encode =
      Except.error CaptureError.captureUnavailable) ∧
    (∀ frame : Image,
      (FaceApi.captureTargetRegion (some frame) readyState targetRegion encode =
          Except.error CaptureError.captureUnavailable ↔
        frame.width = 0 ∨ frame.height = 0 ∨ readyState < 2) ∧
      (FaceApi.captureTargetRegion (some frame) readyState targetRegion encode =
          Except.error CaptureError.regionOutOfBounds ↔
        ¬(frame.width = 0 ∨ frame.height = 0 ∨ readyState < 2) ∧
          regionExceedsFrame frame targetRegion) ∧
      (FaceApi.captureTargetRegion (some frame) readyState targetRegion encode =
          Except.error CaptureError.encodeFailure ↔
        ¬(frame.width = 0 ∨ frame.height = 0 ∨ readyState < 2) ∧
          ¬ regionExceedsFrame frame targetRegion ∧
          (encode (cropImage frame
            (scaleRegionToVideo frame.width frame.height targetRegion)) = "" ∨
           encode (cropImage frame
            (scaleRegionToVideo frame.width frame.height targetRegion)) = "data:,")) ∧
      (∀ sOut : String,
        FaceApi.captureTargetRegion (some frame) readyState targetRegion encode =
          Except.ok sOut →
        sOut = encode (cropImage frame
          (scaleRegionToVideo frame.width frame.height targetRegion)) ∧
        sOut ≠ "" ∧ sOut ≠ "data:,")) ∧
    (∀ (cfg : FaceDetectionConfig) (reg : Rect) (s : CameraB.GateState) (now : ℕ),
      (CameraB.stepEvent cfg reg s
        (CameraB.CameraEvent.captureRun now false)).pendingReset = some (now + 1000) ∧
      (CameraB.stepEvent cfg reg s
        (CameraB.CameraEvent.captureRun now false)).emitted = s.emitted) := by
  refine ⟨rfl, ?_, ?_⟩
  · intro frame
    by_cases h1 : frame.width = 0 ∨ frame.height = 0
    · simp only [FaceApi.captureTargetRegion, if_pos h1]
      exact ⟨⟨fun _ => by tauto, fun _ => trivial⟩, iff_of_false (by simp) (by tauto),
        iff_of_false (by simp) (by tauto), fun sOut h => by simp at h⟩
    · by_cases h2 : readyState < 2
      · simp only [FaceApi.captureTargetRegion, if_neg h1, if_pos h2]
        exact ⟨⟨fun _ => by tauto, fun _ => trivial⟩, iff_of_false (by simp) (by tauto),
          iff_of_false (by simp) (by tauto), fun sOut h => by simp at h⟩
      · by_cases h3 : regionExceedsFrame frame targetRegion
        · simp only [FaceApi.captureTargetRegion, if_neg h1, if_neg h2, if_pos h3]
          exact ⟨iff_of_false (by simp) (by tauto),
            ⟨fun _ => ⟨by tauto, h3⟩, fun _ => trivial⟩,
            iff_of_false (by simp) (by tauto), fun sOut h => by simp at h⟩
        · by_cases h4 : encode (cropImage frame
              (scaleRegionToVideo frame.width frame.height targetRegion)) = "" ∨
              encode (cropImage frame
                (scaleRegionToVideo frame.width frame.height targetRegion)) = "data:,"
          · simp only [FaceApi.captureTargetRegion, if_neg h1, if_neg h2, if_neg h3,
              if_pos h4]
            exact ⟨iff_of_false (by simp) (by tauto),
              iff_of_false (by simp) (by tauto),
              ⟨fun _ => ⟨by tauto, h3, h4⟩, fun _ => trivial⟩, fun sOut h => by simp at h⟩
          · simp only [FaceApi.captureTargetRegion, if_neg h1, if_neg h2, if_neg h3,
              if_neg h4]
            refine ⟨iff_of_false (by simp) (by tauto),
              iff_of_false (by simp) (by tauto),
              iff_of_false (by simp) (by tauto), ?_⟩
            intro sOut h
            simp only [Except.ok.injEq] at h
            push_neg at h4
            exact ⟨h.symm, by rw [← h]; exact h4.1, by rw [← h]; exact h4.2⟩
  · intro cfg reg s now
    exact ⟨rfl, by simp [CameraB.stepEvent]⟩

/-- Witness for C8 at concrete inputs: a frame with zero width fails with
CaptureUnavailable, and a concrete successful capture returns the
non-empty encoded crop. -/
theorem captureFailsExactlyWhenWitness :
    FaceApi.captureTargetRegion
      (some { width := 0, height := 480, pix := fun _ _ => 0 }) 2 regionB widthEncode =
      Except.error CaptureError.captureUnavailable ∧
    widthEncode (cropImage frameOkC4
      (scaleRegionToVideo frameOkC4.width frameOkC4.height regionB)) ≠ "" :=
  ⟨((captureFailsExactlyWhen 2 regionB widthEncode).2.1
      { width := 0, height := 480, pix := fun _ _ => 0 }).1.mpr (by decide),
   (((captureFailsExactlyWhen 2 regionB widthEncode).2.1 frameOkC4).2.2.2
      (widthEncode (cropImage frameOkC4
        (scaleRegionToVideo frameOkC4.width frameOkC4.height regionB)))
      (by decide)).2.1⟩

/-- Claim C10: for every landmark configuration in which the computed eye
centers have distinct x coordinates (and any external atan2-in-degrees
primitive), `calculateFaceOrientation` returns clamped angles:
yaw ∈ [−45, 45], pitch ∈ [−30, 30], roll ∈ [−25, 25]. -/
theorem faceOrientationClamped (atanDeg : ℚ → ℚ → ℚ)
    (nose leftEye rightEye : List (ℚ × ℚ))
    (hx : (getEyeCenter leftEye).1 ≠ (getEyeCenter rightEye).1) :
    (-45 ≤ (calculateFaceOrientation atanDeg nose leftEye rightEye).yaw ∧
      (calculateFaceOrientation atanDeg nose leftEye rightEye).yaw ≤ 45) ∧
    (-30 ≤ (calculateFaceOrientation atanDeg nose leftEye rightEye).pitch ∧
      (calculateFaceOrientation atanDeg nose leftEye rightEye).pitch ≤ 30) ∧
    (-25 ≤ (calculateFaceOrientation atanDeg nose leftEye rightEye).roll ∧
      (calculateFaceOrientation atanDeg nose leftEye rightEye).roll ≤ 25) := by
  simp only [calculateFaceOrientation]
  refine ⟨⟨le_max_left _ _, max_le (by norm_num) (min_le_left _ _)⟩,
    ⟨le_max_left _ _, max_le (by norm_num) (min_le_left _ _)⟩,
    ⟨le_max_left _ _, max_le (by norm_num) (min_le_left _ _)⟩⟩

/-- Concrete 68-landmark-style eye and nose point lists. -/
def leftEyeW : List (ℚ × ℚ) := [(100, 120), (104, 118)]

def rightEyeW : List (ℚ × ℚ) := [(140, 120), (144, 118)]

def noseW : List (ℚ × ℚ) := [(120, 125), (120, 130), (120, 135), (120, 140), (121, 150)]

/-- Witness for C10 at a concrete landmark configuration (eye-center x
coordinates 102 and 142) and a saturating external atan2 value. -/
theorem faceOrientationClampedWitness :
    (-45 ≤ (calculateFaceOrientation (fun _ _ => 90) noseW leftEyeW rightEyeW).yaw ∧
      (calculateFaceOrientation (fun _ _ => 90) noseW leftEyeW rightEyeW).yaw ≤ 45) ∧
    (-30 ≤ (calculateFaceOrientation (fun _ _ => 90) noseW leftEyeW rightEyeW).pitch ∧
      (calculateFaceOrientation (fun _ _ => 90) noseW leftEyeW rightEyeW).pitch ≤ 30) ∧
    (-25 ≤ (calculateFaceOrientation (fun _ _ => 90) noseW leftEyeW rightEyeW).roll ∧
      (calculateFaceOrientation (fun _ _ => 90) noseW leftEyeW rightEyeW).roll ≤ 25) :=
  faceOrientationClamped (fun _ _ => 90) noseW leftEyeW rightEyeW (by decide)
